import Mathlib

/-!
Verification development for the entity-selectors core of an ngrx entity-cache
library.  The embedding models:

* JavaScript object literals and property access as association lists with
  later-wins assignment (`jsGet`, `objSet`);
* the `EntityCollection` state shape (ids, entities, filter, loaded, loading,
  originalValues, plus dynamically declared extra fields);
* the member selector functions built by
  `EntitySelectorsFactory.createCollectionSelectors`;
* the collection accessor `EntitySelectorsFactory.createCollectionSelector`;
* the store-root selector set built by `EntitySelectorsFactory.create`;
* the last-input/last-output memoization contract of composed selectors.
-/

namespace NgrxData

/-- Association-list model of a JavaScript object: insertion-ordered
string-keyed fields. -/
abbrev JsObj (α : Type u) := List (String × α)

/-- Property read on a JS object (first binding wins; objects built with
`objSet` keep keys unique, matching real JS objects). -/
def jsGet {α : Type u} : JsObj α → String → Option α
  | [], _ => none
  | p :: rest, k => if p.1 = k then some p.2 else jsGet rest k

/-- Property assignment `o[k] = v` on a JS object: an existing key keeps its
position and gets the new value, a fresh key is appended (JS insertion-order
semantics). -/
def objSet {α : Type u} : JsObj α → String → α → JsObj α
  | [], k, v => [(k, v)]
  | p :: rest, k, v => if p.1 = k then (k, v) :: rest else p :: objSet rest k v

/-- Lookup in a `Dictionary<T>` keyed by entity key (`entities[key]`);
`none` plays the role of JavaScript `undefined`. -/
def dictGet {K : Type u} {T : Type v} [DecidableEq K] : List (K × T) → K → Option T
  | [], _ => none
  | p :: rest, k => if p.1 = k then some p.2 else dictGet rest k

/-- The normalized per-type collection state (`EntityCollection<T>`):
`ids` in native order, the key→entity map, the filter pattern, the two
loading flags, the pending-edit snapshot, and any declared additional
collection-state fields (type `V`). -/
structure EntityCollection (K T V : Type) where
  ids : List K
  entities : List (K × T)
  filter : String
  loaded : Bool
  loading : Bool
  originalValues : List (K × T)
  extra : List (String × V)
deriving DecidableEq

/-- Universal type of values a selector can produce (the codomains of the
member selectors, JS `undefined` included). -/
inductive JsValue (K T V : Type) where
  | undefined
  | num (n : Nat)
  | str (s : String)
  | bool (b : Bool)
  | keys (l : List K)
  | entityList (l : List (Option T))
  | dict (d : List (K × T))
  | extraVal (v : V)
  | coll (c : EntityCollection K T V)
deriving DecidableEq

/-- Dynamic property read `(<any>c)[k]` on an `EntityCollection` object:
built-in fields first, then the declared additional-state fields, and JS
`undefined` for an unknown name. -/
def EntityCollection.getField {K T V : Type} (c : EntityCollection K T V)
    (k : String) : JsValue K T V :=
  if k = "ids" then .keys c.ids
  else if k = "entities" then .dict c.entities
  else if k = "filter" then .str c.filter
  else if k = "loaded" then .bool c.loaded
  else if k = "loading" then .bool c.loading
  else if k = "originalValues" then .dict c.originalValues
  else
    match dictGetStr c.extra k with
    | some v => .extraVal v
    | none => .undefined
where
  /-- string-keyed lookup in the extra-field map -/
  dictGetStr : List (String × V) → String → Option V
    | [], _ => none
    | p :: rest, k => if p.1 = k then some p.2 else dictGetStr rest k

/-- Per-type configuration (`Partial<EntityMetadata<T>>`): the optional type
name, the optional filter predicate, and the optional additional
collection-state declaration (field name with its default value). -/
structure EntityMetadata (K T V : Type) where
  entityName : Option String
  filterFn : Option (List (Option T) → String → List (Option T))
  additionalCollectionState : Option (List (String × V))

/-- `const selectKeys = (c: EntityCollection<T>) => c.ids` -/
def selectKeys {K T V : Type} (c : EntityCollection K T V) : List K := c.ids

/-- `const selectEntityMap = (c: EntityCollection<T>) => c.entities` -/
def selectEntityMap {K T V : Type} (c : EntityCollection K T V) : List (K × T) :=
  c.entities

/-- `createSelector(selectKeys, selectEntityMap, (keys, entities) =>
keys.map(key => entities[key] as T))` -/
def selectEntities {K T V : Type} [DecidableEq K] (c : EntityCollection K T V) :
    List (Option T) :=
  (selectKeys c).map (fun key => dictGet (selectEntityMap c) key)

/-- `createSelector(selectKeys, keys => keys.length)` -/
def selectCount {K T V : Type} (c : EntityCollection K T V) : Nat :=
  (selectKeys c).length

/-- `const selectFilter = (c: EntityCollection<T>) => c.filter` -/
def selectFilter {K T V : Type} (c : EntityCollection K T V) : String := c.filter

/-- `filterFn ? createSelector(selectEntities, selectFilter, (entities, pattern)
=> filterFn(entities, pattern)) : selectEntities` -/
def selectFilteredEntities {K T V : Type} [DecidableEq K]
    (md : EntityMetadata K T V) (c : EntityCollection K T V) : List (Option T) :=
  match md.filterFn with
  | some filterFn => filterFn (selectEntities c) (selectFilter c)
  | none => selectEntities c

/-- `const selectLoaded = (c: EntityCollection<T>) => c.loaded` -/
def selectLoaded {K T V : Type} (c : EntityCollection K T V) : Bool := c.loaded

/-- `const selectLoading = (c: EntityCollection<T>) => c.loading` -/
def selectLoading {K T V : Type} (c : EntityCollection K T V) : Bool := c.loading

/-- `const selectOriginalValues = (c: EntityCollection<T>) => c.originalValues` -/
def selectOriginalValues {K T V : Type} (c : EntityCollection K T V) :
    List (K × T) := c.originalValues

/-- Well-formedness of a collection: `ids` has no duplicates and the keys of
`entities` are exactly the ids. -/
def WellFormed {K T V : Type} [DecidableEq K] (c : EntityCollection K T V) : Prop :=
  c.ids.Nodup ∧ (∀ k ∈ c.ids, (dictGet c.entities k).isSome) ∧
    ∀ p ∈ c.entities, p.1 ∈ c.ids

/-- A member selector: an `EntityCollection` to one of the selector codomains. -/
abbrev Sel (K T V : Type) := EntityCollection K T V → JsValue K T V

/-- `selectCount` as an object member. -/
def selectCountSel {K T V : Type} : Sel K T V := fun c => .num (selectCount c)

/-- `selectEntities` as an object member. -/
def selectEntitiesSel {K T V : Type} [DecidableEq K] : Sel K T V :=
  fun c => .entityList (selectEntities c)

/-- `selectEntityMap` as an object member. -/
def selectEntityMapSel {K T V : Type} : Sel K T V := fun c => .dict (selectEntityMap c)

/-- `selectFilter` as an object member. -/
def selectFilterSel {K T V : Type} : Sel K T V := fun c => .str (selectFilter c)

/-- The `selectFilteredEntities` member: the composed filter selector when a
`filterFn` is configured, the very `selectEntities` member otherwise. -/
def selectFilteredEntitiesSel {K T V : Type} [DecidableEq K]
    (md : EntityMetadata K T V) : Sel K T V :=
  match md.filterFn with
  | some filterFn =>
      fun c => .entityList (filterFn (selectEntities c) (selectFilter c))
  | none => selectEntitiesSel

/-- `selectKeys` as an object member. -/
def selectKeysSel {K T V : Type} : Sel K T V := fun c => .keys (selectKeys c)

/-- `selectLoaded` as an object member. -/
def selectLoadedSel {K T V : Type} : Sel K T V := fun c => .bool (selectLoaded c)

/-- `selectLoading` as an object member. -/
def selectLoadingSel {K T V : Type} : Sel K T V := fun c => .bool (selectLoading c)

/-- `selectOriginalValues` as an object member. -/
def selectOriginalValuesSel {K T V : Type} : Sel K T V :=
  fun c => .dict (selectOriginalValues c)

/-- `k[0].toUpperCase() + k.slice(1)` for a nonempty field name. -/
def capFirst (k : String) : String :=
  match k.toList with
  | [] => ""
  | c :: rest => String.mk (c.toUpper :: rest)

/-- The generated name of an extra-field selector:
`'select' + k[0].toUpperCase() + k.slice(1)`. -/
def extraSelName (k : String) : String := "select" ++ capFirst k

/-- `Object.keys(metadata.additionalCollectionState || {})`. -/
def extraKeys {K T V : Type} (md : EntityMetadata K T V) : List String :=
  (md.additionalCollectionState.getD []).map Prod.fst

/-- Spreading the generated extra-field selectors (`(c) => (<any>c)[k]`, one
per declared field name) over an object, assigning in declaration order. -/
def extraFold {K T V : Type} (ks : List String) (o0 : JsObj (Sel K T V)) :
    JsObj (Sel K T V) :=
  ks.foldl (fun o k => objSet o (extraSelName k) (fun c => c.getField k)) o0

/-- The nine member-selector names of the object literal returned by
`createCollectionSelectors`, in source order. -/
def builtinNames : List String :=
  ["selectCount", "selectEntities", "selectEntityMap", "selectFilter",
   "selectFilteredEntities", "selectKeys", "selectLoaded", "selectLoading",
   "selectOriginalValues"]

/-- The object literal of the nine built-in member selectors, in source order. -/
def builtinSelObj {K T V : Type} [DecidableEq K] (md : EntityMetadata K T V) :
    JsObj (Sel K T V) :=
  [("selectCount", selectCountSel),
     ("selectEntities", selectEntitiesSel),
     ("selectEntityMap", selectEntityMapSel),
     ("selectFilter", selectFilterSel),
     ("selectFilteredEntities", selectFilteredEntitiesSel md),
     ("selectKeys", selectKeysSel),
     ("selectLoaded", selectLoadedSel),
     ("selectLoading", selectLoadingSel),
     ("selectOriginalValues", selectOriginalValuesSel)]

/-- `EntitySelectorsFactory.createCollectionSelectors(metadata)`: the literal
with the nine built-in members, then the spread of the generated extra-field
selectors, which assign over the literal in declaration order. -/
def createCollectionSelectors {K T V : Type} [DecidableEq K]
    (md : EntityMetadata K T V) : JsObj (Sel K T V) :=
  extraFold (extraKeys md) (builtinSelObj md)

/-- The global store state: the (possibly still absent) `EntityCache` feature
slice — a string-keyed object of collections — and the rest of the state tree
(opaque type `R`). -/
structure GlobalState (K T V R : Type) where
  cache : Option (JsObj (EntityCollection K T V))
  rest : R
deriving DecidableEq

/-- Modelled from the spec: `EntityCollectionCreator` lives outside `src/`
(only its import and call site are shown); per the spec it supplies a
correctly-initialized default collection for a type name and never fails.
The argument is `Option String` because `create` may forward a missing
`entityName`. -/
structure EntityCollectionCreator (K T V : Type) where
  create : Option String → EntityCollection K T V

/-- JavaScript property-key coercion: indexing an object with `undefined`
reads the property named `"undefined"`. -/
def jsKeyOf : Option String → String
  | some n => n
  | none => "undefined"

/-- `const getCollection = (cache: EntityCache = {}) => cache[entityName] ||
this.entityCollectionCreator.create(entityName)` (a stored collection object
is always truthy, so `||` falls through exactly on an absent key). -/
def getCollection {K T V : Type} (creator : EntityCollectionCreator K T V)
    (entityName : Option String)
    (cacheOpt : Option (JsObj (EntityCollection K T V))) :
    EntityCollection K T V :=
  match jsGet (cacheOpt.getD []) (jsKeyOf entityName) with
  | some c => c
  | none => creator.create entityName

/-- `EntitySelectorsFactory.createCollectionSelector(entityName)` as a pure
function of the global state: `createSelector(this.selectEntityCache,
getCollection)` where the feature selector reads the cache slice. -/
def createCollectionSelector {K T V R : Type} (creator : EntityCollectionCreator K T V)
    (entityName : Option String) (s : GlobalState K T V R) :
    EntityCollection K T V :=
  getCollection creator entityName s.cache

/-- The collection accessor with explicit state threading: `getCollection`
contains only reads (a cache lookup and possibly a Creator call), no
assignment, so each branch passes the incoming state through. -/
def createCollectionSelectorSt {K T V R : Type}
    (creator : EntityCollectionCreator K T V) (entityName : Option String)
    (s : GlobalState K T V R) :
    EntityCollection K T V × GlobalState K T V R :=
  match jsGet (s.cache.getD []) (jsKeyOf entityName) with
  | some c => (c, s)
  | none => (creator.create entityName, s)

/-- A member of the object returned by `EntitySelectorsFactory.create`:
either a plain value (the `entityName` field) or a store-root selector. -/
inductive ObjMember (K T V R : Type) where
  | val (v : JsValue K T V)
  | sel (f : GlobalState K T V R → JsValue K T V)

/-- Reading a member of the root selector set at a state: a plain value field
evaluates to itself, a selector field is applied. -/
def applyMember {K T V R : Type} (e : ObjMember K T V R)
    (s : GlobalState K T V R) : JsValue K T V :=
  match e with
  | .val v => v
  | .sel f => f s

/-- The `entityName` field value carried on the root selector set. -/
def jsOfName {K T V : Type} : Option String → JsValue K T V
  | some n => .str n
  | none => .undefined

/-- `EntitySelectorsFactory.create(metadata)`: the literal
`{ entityName, selectCollection, ...entitySelectors }` where
`entitySelectors[k] = createSelector(selectCollection, collectionSelectors[k])`
for each key of the member selector set. -/
def create {K T V R : Type} [DecidableEq K]
    (creator : EntityCollectionCreator K T V) (md : EntityMetadata K T V) :
    JsObj (ObjMember K T V R) :=
  let selectCollection := fun s : GlobalState K T V R =>
    createCollectionSelector creator md.entityName s
  let collectionSelectors := createCollectionSelectors md
  (collectionSelectors.map
      (fun p => (p.1, ObjMember.sel (fun s => p.2 (selectCollection s))))).foldl
    (fun o p => objSet o p.1 p.2)
    [("entityName", .val (jsOfName md.entityName)),
     ("selectCollection", .sel (fun s => .coll (selectCollection s)))]

/-- Modelled from the spec: the memoization state of a derivation built with
`createSelector` (`@ngrx/store`, outside `src/`): the last input/output pair,
compared by (referential) identity. -/
structure Memo1 (α β : Type u) where
  last : Option (α × β)

/-- One call of a memoized derivation: on a hit it returns the cached output
without running the computation; on a miss it runs the computation and caches
the pair.  The boolean reports whether the computation ran. -/
def Memo1.call {α β : Type u} [DecidableEq α] (m : Memo1 α β) (f : α → β)
    (a : α) : β × Memo1 α β × Bool :=
  match m.last with
  | some (a0, b0) => if a = a0 then (b0, m, false) else (f a, ⟨some (a, f a)⟩, true)
  | none => (f a, ⟨some (a, f a)⟩, true)

/-- One call of a memoized derivation whose computation is instrumented with a
cost (e.g. the number of Collection-Creator invocations): a hit costs 0. -/
def Memo1.callCost {α β : Type u} [DecidableEq α] (m : Memo1 α β)
    (f : α → β × Nat) (a : α) : β × Memo1 α β × Nat :=
  match m.last with
  | some (a0, b0) =>
      if a = a0 then (b0, m, 0) else ((f a).1, ⟨some (a, (f a).1)⟩, (f a).2)
  | none => ((f a).1, ⟨some (a, (f a).1)⟩, (f a).2)

/-- `getCollection` instrumented with the number of Collection-Creator
invocations it performs (0 on a cache hit, 1 on a miss). -/
def getCollectionCost {K T V R : Type} (creator : EntityCollectionCreator K T V)
    (entityName : Option String) (s : GlobalState K T V R) :
    EntityCollection K T V × Nat :=
  match jsGet (s.cache.getD []) (jsKeyOf entityName) with
  | some c => (c, 0)
  | none => (creator.create entityName, 1)

/-- A composed derivation `createSelector(g, p)` per the spec's memoization
contract: the input derivation and the projector each hold their own
last-input/last-output memo; the boolean reports whether the projector ran. -/
def composedCall {σ α β : Type} [DecidableEq σ] [DecidableEq α] (g : σ → α)
    (p : α → β) (st : Memo1 σ α × Memo1 α β) (s : σ) :
    β × (Memo1 σ α × Memo1 α β) × Bool :=
  let r1 := st.1.call g s
  let r2 := st.2.call p r1.1
  (r2.1, (r1.2.1, r2.2.1), r2.2.2)

/-- A test entity with an id and a name, for concrete instantiations. -/
structure Person where
  id : Nat
  name : String
deriving DecidableEq

/-- `true` when the second char list is an initial segment of the first. -/
def charListStarts : List Char → List Char → Bool
  | _, [] => true
  | [], _ :: _ => false
  | c :: cs, d :: ds => c == d && charListStarts cs ds

/-- `true` when the second char list occurs inside the first. -/
def charListHas : List Char → List Char → Bool
  | [], pat => pat.isEmpty
  | c :: rest, pat => charListStarts (c :: rest) pat || charListHas rest pat

/-- `true` when `pat` occurs as a substring of `s`. -/
def strContains (s pat : String) : Bool :=
  charListHas s.toList pat.toList

/-- The example filter predicate: keep the entities whose `name` contains the
filter pattern as a substring. -/
def nameFilter (entities : List (Option Person)) (pattern : String) :
    List (Option Person) :=
  entities.filter (fun e =>
    match e with
    | some p => strContains p.name pattern
    | none => false)

/-- A concrete default Collection Creator over `Nat` keys and entities:
default construction of an empty collection. -/
def natCreator : EntityCollectionCreator Nat Nat Nat :=
  ⟨fun _ => ⟨[], [], "", false, false, [], []⟩⟩

end NgrxData

namespace NgrxData

theorem jsGet_objSet_self {α : Type u} (o : JsObj α) (k : String) (v : α) :
    jsGet (objSet o k v) k = some v := by
  induction o with
  | nil => simp [objSet, jsGet]
  | cons p rest ih =>
      by_cases h : p.1 = k
      · simp [objSet, h, jsGet]
      · simp [objSet, h, jsGet, ih]

theorem jsGet_objSet_ne {α : Type u} (o : JsObj α) {k k' : String} (v : α)
    (h : k' ≠ k) : jsGet (objSet o k v) k' = jsGet o k' := by
  induction o with
  | nil => simp [objSet, jsGet, Ne.symm h]
  | cons p rest ih =>
      by_cases hp : p.1 = k
      · simp [objSet, hp, jsGet, Ne.symm h, ih]
      · simp [objSet, hp, jsGet, ih]

theorem jsGet_mem {α : Type u} {o : JsObj α} {k : String} {v : α}
    (h : jsGet o k = some v) : (k, v) ∈ o := by
  induction o with
  | nil => simp [jsGet] at h
  | cons p rest ih =>
      by_cases hp : p.1 = k
      · rw [jsGet, if_pos hp] at h
        rcases p with ⟨pk, pv⟩
        cases hp
        cases h
        exact List.mem_cons_self _ _
      · rw [jsGet, if_neg hp] at h
        exact List.mem_cons_of_mem _ (ih h)

theorem keys_objSet {α : Type u} (o : JsObj α) (k : String) (v : α) :
    (objSet o k v).map Prod.fst = o.map Prod.fst ∨
      (objSet o k v).map Prod.fst = o.map Prod.fst ++ [k] := by
  induction o with
  | nil => right; simp [objSet]
  | cons p rest ih =>
      by_cases hp : p.1 = k
      · left; simp [objSet, hp]
      · rcases ih with ih | ih
        · left; simp [objSet, hp, ih]
        · right; simp [objSet, hp, ih]

theorem mem_keys_objSet {α : Type u} {o : JsObj α} {k s : String} {v : α}
    (h : s ∈ (objSet o k v).map Prod.fst) :
    s ∈ o.map Prod.fst ∨ s = k := by
  rcases keys_objSet o k v with hk | hk <;> rw [hk] at h
  · exact Or.inl h
  · rcases List.mem_append.mp h with h | h
    · exact Or.inl h
    · exact Or.inr (by simpa using h)

theorem nodup_keys_objSet {α : Type u} {o : JsObj α} (k : String) (v : α)
    (h : (o.map Prod.fst).Nodup) : ((objSet o k v).map Prod.fst).Nodup := by
  induction o with
  | nil => simp [objSet]
  | cons p rest ih =>
      rw [List.map_cons, List.nodup_cons] at h
      by_cases hp : p.1 = k
      · rw [objSet, if_pos hp]
        simp only [List.map_cons, List.nodup_cons]
        exact ⟨by rw [← hp]; exact h.1, h.2⟩
      · rw [objSet, if_neg hp]
        simp only [List.map_cons, List.nodup_cons]
        refine ⟨?_, ih h.2⟩
        intro hmem
        rcases mem_keys_objSet hmem with hm | hm
        · exact h.1 hm
        · exact hp hm

theorem nodup_keys_lookup_eq {α : Type u} {o : JsObj α}
    (h : (o.map Prod.fst).Nodup) {k : String} {a b : α}
    (ha : (k, a) ∈ o) (hb : (k, b) ∈ o) : a = b := by
  induction o with
  | nil => simp at ha
  | cons p rest ih =>
      rw [List.map_cons, List.nodup_cons] at h
      rcases List.mem_cons.mp ha with ha1 | ha1 <;>
        rcases List.mem_cons.mp hb with hb1 | hb1
      · exact (Prod.ext_iff.mp (ha1.trans hb1.symm)).2
      · exfalso
        have hk1 : p.1 = k := by rw [← ha1]
        have hmem : k ∈ rest.map Prod.fst :=
          List.mem_map.mpr ⟨(k, b), hb1, rfl⟩
        exact h.1 (by rw [hk1]; exact hmem)
      · exfalso
        have hk1 : p.1 = k := by rw [← hb1]
        have hmem : k ∈ rest.map Prod.fst :=
          List.mem_map.mpr ⟨(k, a), ha1, rfl⟩
        exact h.1 (by rw [hk1]; exact hmem)
      · exact ih h.2 ha1 hb1

theorem extraFold_cons {K T V : Type} (x : String) (rest : List String)
    (o0 : JsObj (Sel K T V)) :
    extraFold (x :: rest) o0 =
      extraFold rest (objSet o0 (extraSelName x) (fun c => c.getField x)) := rfl

theorem extraFold_ne {K T V : Type} (ks : List String) (o0 : JsObj (Sel K T V))
    (s : String) (h : ∀ x ∈ ks, extraSelName x ≠ s) :
    jsGet (extraFold ks o0) s = jsGet o0 s := by
  induction ks generalizing o0 with
  | nil => rfl
  | cons x rest ih =>
      rw [extraFold_cons, ih _ (fun y hy => h y (List.mem_cons_of_mem _ hy)),
        jsGet_objSet_ne]
      exact fun he => h x (List.mem_cons_self _ _) he.symm

theorem extraFold_keep {K T V : Type} (ks : List String) (o0 : JsObj (Sel K T V))
    (k : String) (huniq : ∀ x ∈ ks, extraSelName x = extraSelName k → x = k)
    (h0 : jsGet o0 (extraSelName k) = some (fun c => c.getField k)) :
    jsGet (extraFold ks o0) (extraSelName k) = some (fun c => c.getField k) := by
  induction ks generalizing o0 with
  | nil => exact h0
  | cons x rest ih =>
      rw [extraFold_cons]
      refine ih _ (fun y hy => huniq y (List.mem_cons_of_mem _ hy)) ?_
      by_cases hx : extraSelName x = extraSelName k
      · have hxk : x = k := huniq x (List.mem_cons_self _ _) hx
        subst hxk
        exact jsGet_objSet_self o0 _ _
      · rw [jsGet_objSet_ne _ _ (fun he => hx he.symm)]
        exact h0

theorem extraFold_found {K T V : Type} (ks : List String) (o0 : JsObj (Sel K T V))
    (k : String) (hk : k ∈ ks)
    (huniq : ∀ x ∈ ks, extraSelName x = extraSelName k → x = k) :
    jsGet (extraFold ks o0) (extraSelName k) = some (fun c => c.getField k) := by
  induction ks generalizing o0 with
  | nil => simp at hk
  | cons x rest ih =>
      rw [extraFold_cons]
      by_cases hxk : x = k
      · subst hxk
        exact extraFold_keep rest _ x
          (fun y hy => huniq y (List.mem_cons_of_mem _ hy))
          (jsGet_objSet_self o0 _ _)
      · rcases List.mem_cons.mp hk with hk1 | hk1
        · exact absurd hk1.symm hxk
        · exact ih _ hk1 (fun y hy => huniq y (List.mem_cons_of_mem _ hy))

theorem extraFold_keys {K T V : Type} (ks : List String) (o0 : JsObj (Sel K T V))
    (s : String) (h : s ∈ (extraFold ks o0).map Prod.fst) :
    s ∈ o0.map Prod.fst ∨ ∃ x ∈ ks, s = extraSelName x := by
  induction ks generalizing o0 with
  | nil => exact Or.inl h
  | cons x rest ih =>
      rw [extraFold_cons] at h
      rcases ih _ h with h1 | h1
      · rcases mem_keys_objSet h1 with h2 | h2
        · exact Or.inl h2
        · exact Or.inr ⟨x, List.mem_cons_self _ _, h2⟩
      · rcases h1 with ⟨y, hy, hsy⟩
        exact Or.inr ⟨y, List.mem_cons_of_mem _ hy, hsy⟩

theorem extraFold_nodup_keys {K T V : Type} (ks : List String)
    (o0 : JsObj (Sel K T V)) (h : (o0.map Prod.fst).Nodup) :
    ((extraFold ks o0).map Prod.fst).Nodup := by
  induction ks generalizing o0 with
  | nil => exact h
  | cons x rest ih =>
      rw [extraFold_cons]
      exact ih _ (nodup_keys_objSet _ _ h)

theorem foldl_objSet_ne {α : Type u} (L : List (String × α)) (o0 : JsObj α)
    (k : String) (h : ∀ q ∈ L, q.1 ≠ k) :
    jsGet (L.foldl (fun o p => objSet o p.1 p.2) o0) k = jsGet o0 k := by
  induction L generalizing o0 with
  | nil => rfl
  | cons q rest ih =>
      rw [List.foldl_cons,
        ih _ (fun y hy => h y (List.mem_cons_of_mem _ hy)),
        jsGet_objSet_ne]
      exact fun he => h q (List.mem_cons_self _ _) he.symm

theorem foldl_objSet_keep {α : Type u} (L : List (String × α)) (o0 : JsObj α)
    (k : String) (v : α) (huniq : ∀ q ∈ L, q.1 = k → q.2 = v)
    (h0 : jsGet o0 k = some v) :
    jsGet (L.foldl (fun o p => objSet o p.1 p.2) o0) k = some v := by
  induction L generalizing o0 with
  | nil => exact h0
  | cons q rest ih =>
      rw [List.foldl_cons]
      refine ih _ (fun y hy => huniq y (List.mem_cons_of_mem _ hy)) ?_
      by_cases hq : q.1 = k
      · have hv : q.2 = v := huniq q (List.mem_cons_self _ _) hq
        rw [hq, hv]
        exact jsGet_objSet_self o0 _ _
      · rw [jsGet_objSet_ne _ _ (fun he => hq he.symm)]
        exact h0

theorem foldl_objSet_found {α : Type u} (L : List (String × α)) (o0 : JsObj α)
    (k : String) (v : α) (hk : (k, v) ∈ L)
    (huniq : ∀ q ∈ L, q.1 = k → q.2 = v) :
    jsGet (L.foldl (fun o p => objSet o p.1 p.2) o0) k = some v := by
  induction L generalizing o0 with
  | nil => simp at hk
  | cons q rest ih =>
      rw [List.foldl_cons]
      rcases List.mem_cons.mp hk with hk1 | hk1
      · rw [← hk1]
        exact foldl_objSet_keep rest _ k v
          (fun y hy => huniq y (List.mem_cons_of_mem _ hy))
          (jsGet_objSet_self o0 _ _)
      · exact ih _ hk1 (fun y hy => huniq y (List.mem_cons_of_mem _ hy))

theorem foldl_objSet_entries {α : Type u} (L : List (String × α)) (o0 : JsObj α)
    (k : String) (v : α)
    (h : jsGet (L.foldl (fun o p => objSet o p.1 p.2) o0) k = some v) :
    (k, v) ∈ L ∨ jsGet o0 k = some v := by
  induction L generalizing o0 with
  | nil => exact Or.inr h
  | cons q rest ih =>
      rw [List.foldl_cons] at h
      rcases ih _ h with h1 | h1
      · exact Or.inl (List.mem_cons_of_mem _ h1)
      · by_cases hq : k = q.1
        · subst hq
          rw [jsGet_objSet_self] at h1
          cases h1
          exact Or.inl (by exact List.mem_cons_self _ _)
        · rw [jsGet_objSet_ne _ _ hq] at h1
          exact Or.inr h1

theorem jsGet_of_mem_nodup {α : Type u} {o : JsObj α}
    (h : (o.map Prod.fst).Nodup) {k : String} {v : α} (hm : (k, v) ∈ o) :
    jsGet o k = some v := by
  induction o with
  | nil => simp at hm
  | cons p rest ih =>
      rw [List.map_cons, List.nodup_cons] at h
      rcases List.mem_cons.mp hm with h1 | h1
      · rw [← h1]
        simp [jsGet]
      · by_cases hp : p.1 = k
        · exfalso
          apply h.1
          rw [hp]
          exact List.mem_map.mpr ⟨(k, v), h1, rfl⟩
        · rw [jsGet, if_neg hp]
          exact ih h.2 h1

theorem builtinSelObj_keys {K T V : Type} [DecidableEq K]
    (md : EntityMetadata K T V) :
    (builtinSelObj md).map Prod.fst = builtinNames := rfl

theorem cs_nodup_keys {K T V : Type} [DecidableEq K]
    (md : EntityMetadata K T V) :
    ((createCollectionSelectors md).map Prod.fst).Nodup := by
  apply extraFold_nodup_keys
  rw [builtinSelObj_keys]
  decide

theorem extraSelName_head (x : String) :
    (extraSelName x).data.head? = some 's' := by
  have h : (extraSelName x).data = "select".data ++ (capFirst x).data :=
    String.data_append "select" (capFirst x)
  rw [h]
  rfl

theorem extraSelName_ne_entityName (x : String) :
    extraSelName x ≠ "entityName" := by
  intro he
  have h1 := extraSelName_head x
  rw [he] at h1
  exact absurd h1 (by decide)

theorem extraSelName_ne_selectCollection (x : String)
    (hcap : capFirst x ≠ "Collection") : extraSelName x ≠ "selectCollection" := by
  intro he
  apply hcap
  have he2 : "select" ++ capFirst x = "select" ++ "Collection" := by
    rw [extraSelName] at he
    rw [he]
    rfl
  have h := congrArg String.data he2
  rw [String.data_append, String.data_append] at h
  exact String.ext (List.append_cancel_left h)

/-- C1: on every well-formed collection, `selectEntities` is `selectKeys`
mapped through `selectEntityMap` in key order, the lengths of
`selectEntities` and `selectKeys` agree with `selectCount`, and entry `i` of
`selectEntities` is the entity-map entry of key `i`. -/
theorem c1_entity_list_key_consistency {K T V : Type} [DecidableEq K]
    (c : EntityCollection K T V) (_hwf : WellFormed c) :
    selectEntities c = (selectKeys c).map (fun k => dictGet (selectEntityMap c) k) ∧
    (selectEntities c).length = (selectKeys c).length ∧
    (selectKeys c).length = selectCount c ∧
    ∀ i : Nat, i < (selectKeys c).length →
      (selectEntities c)[i]? =
        ((selectKeys c)[i]?).map (fun k => dictGet (selectEntityMap c) k) := by
  refine ⟨rfl, by simp [selectEntities], rfl, ?_⟩
  intro i hi
  simp [selectEntities, List.getElem?_map]

/-- Witness for C1 at a concrete two-element collection. -/
theorem c1_entity_list_key_consistency_witness :
    selectEntities (⟨[1, 2], [(1, 10), (2, 20)], "", false, false, [], []⟩ :
        EntityCollection Nat Nat Nat) =
      (selectKeys (⟨[1, 2], [(1, 10), (2, 20)], "", false, false, [], []⟩ :
          EntityCollection Nat Nat Nat)).map
        (fun k =>
          dictGet (selectEntityMap (⟨[1, 2], [(1, 10), (2, 20)], "", false,
            false, [], []⟩ : EntityCollection Nat Nat Nat)) k) ∧
    (selectEntities (⟨[1, 2], [(1, 10), (2, 20)], "", false, false, [], []⟩ :
        EntityCollection Nat Nat Nat)).length =
      (selectKeys (⟨[1, 2], [(1, 10), (2, 20)], "", false, false, [], []⟩ :
          EntityCollection Nat Nat Nat)).length ∧
    (selectKeys (⟨[1, 2], [(1, 10), (2, 20)], "", false, false, [], []⟩ :
        EntityCollection Nat Nat Nat)).length =
      selectCount (⟨[1, 2], [(1, 10), (2, 20)], "", false, false, [], []⟩ :
        EntityCollection Nat Nat Nat) ∧
    ∀ i : Nat,
      i < (selectKeys (⟨[1, 2], [(1, 10), (2, 20)], "", false, false, [], []⟩ :
          EntityCollection Nat Nat Nat)).length →
      (selectEntities (⟨[1, 2], [(1, 10), (2, 20)], "", false, false, [], []⟩ :
          EntityCollection Nat Nat Nat))[i]? =
        ((selectKeys (⟨[1, 2], [(1, 10), (2, 20)], "", false, false, [], []⟩ :
            EntityCollection Nat Nat Nat))[i]?).map
          (fun k =>
            dictGet (selectEntityMap (⟨[1, 2], [(1, 10), (2, 20)], "", false,
              false, [], []⟩ : EntityCollection Nat Nat Nat)) k) :=
  c1_entity_list_key_consistency
    (⟨[1, 2], [(1, 10), (2, 20)], "", false, false, [], []⟩ :
      EntityCollection Nat Nat Nat)
    (by refine ⟨by decide, by decide, by decide⟩)

/-- C2: the collection accessor is total: it returns the stored collection
when the type name is a key of the cache slice, otherwise the collection
synthesized by the Collection Creator; there is no error case, and the
state-threaded accessor passes the global state through unchanged (nothing is
written back). -/
theorem c2_accessor_total {K T V R : Type}
    (creator : EntityCollectionCreator K T V) (n : String)
    (s : GlobalState K T V R) :
    (∀ c, jsGet (s.cache.getD []) n = some c →
        createCollectionSelector creator (some n) s = c) ∧
    (jsGet (s.cache.getD []) n = none →
        createCollectionSelector creator (some n) s = creator.create (some n)) ∧
    (createCollectionSelectorSt creator (some n) s).2 = s := by
  refine ⟨?_, ?_, ?_⟩
  · intro c hc
    simp [createCollectionSelector, getCollection, jsKeyOf, hc]
  · intro hc
    simp [createCollectionSelector, getCollection, jsKeyOf, hc]
  · unfold createCollectionSelectorSt
    split <;> rfl

/-- Witness for C2: a cache with a stored `"Hero"` collection serves the hit,
the miss on `"Villain"`, and the unchanged-state conclusion. -/
theorem c2_accessor_total_witness :
    createCollectionSelector natCreator (some "Hero")
        (⟨some [("Hero", ⟨[1], [(1, 5)], "", true, false, [], []⟩)], 0⟩ :
          GlobalState Nat Nat Nat Nat) =
      ⟨[1], [(1, 5)], "", true, false, [], []⟩ ∧
    createCollectionSelector natCreator (some "Villain")
        (⟨some [("Hero", ⟨[1], [(1, 5)], "", true, false, [], []⟩)], 0⟩ :
          GlobalState Nat Nat Nat Nat) =
      natCreator.create (some "Villain") ∧
    (createCollectionSelectorSt natCreator (some "Hero")
        (⟨some [("Hero", ⟨[1], [(1, 5)], "", true, false, [], []⟩)], 0⟩ :
          GlobalState Nat Nat Nat Nat)).2 =
      ⟨some [("Hero", ⟨[1], [(1, 5)], "", true, false, [], []⟩)], 0⟩ :=
  ⟨(c2_accessor_total natCreator "Hero" _).1 _ (by decide),
   (c2_accessor_total natCreator "Villain" _).2.1 (by decide),
   (c2_accessor_total natCreator "Hero" _).2.2⟩

theorem Memo1.call_twice {α β : Type} [DecidableEq α] (m0 : Memo1 α β)
    (f : α → β) (a : α) :
    ((m0.call f a).2.1.call f a).1 = (m0.call f a).1 ∧
    ((m0.call f a).2.1.call f a).2.2 = false := by
  rcases m0 with ⟨_ | ⟨a0, b0⟩⟩
  · simp [Memo1.call]
  · by_cases h : a = a0 <;> simp [Memo1.call, h]

theorem Memo1.callCost_twice {α β : Type} [DecidableEq α] (m0 : Memo1 α β)
    (f : α → β × Nat) (a : α) :
    ((m0.callCost f a).2.1.callCost f a).1 = (m0.callCost f a).1 ∧
    ((m0.callCost f a).2.1.callCost f a).2.2 = 0 := by
  rcases m0 with ⟨_ | ⟨a0, b0⟩⟩
  · simp [Memo1.callCost]
  · by_cases h : a = a0 <;> simp [Memo1.callCost, h]

/-- C3: a memoized derivation called a second time with the identical input
returns the first call's output and does not re-run the underlying
computation; in particular the collection accessor, called again with the
identical global state and type name, re-invokes the Collection Creator zero
times. -/
theorem c3_memoized_on_identity {α β : Type} [DecidableEq α] (f : α → β)
    (a : α) (m0 : Memo1 α β) {K T V R : Type} [DecidableEq K] [DecidableEq T]
    [DecidableEq V] [DecidableEq R] (creator : EntityCollectionCreator K T V)
    (n : Option String) (s : GlobalState K T V R)
    (mc : Memo1 (GlobalState K T V R) (EntityCollection K T V)) :
    ((m0.call f a).2.1.call f a).1 = (m0.call f a).1 ∧
    ((m0.call f a).2.1.call f a).2.2 = false ∧
    ((mc.callCost (getCollectionCost creator n) s).2.1.callCost
        (getCollectionCost creator n) s).1 =
      (mc.callCost (getCollectionCost creator n) s).1 ∧
    ((mc.callCost (getCollectionCost creator n) s).2.1.callCost
        (getCollectionCost creator n) s).2.2 = 0 :=
  ⟨(Memo1.call_twice m0 f a).1, (Memo1.call_twice m0 f a).2,
   (Memo1.callCost_twice mc (getCollectionCost creator n) s).1,
   (Memo1.callCost_twice mc (getCollectionCost creator n) s).2⟩

/-- C6: with a configured filter predicate, `selectFilteredEntities` is the
predicate applied to (`selectEntities`, `selectFilter`), both as the raw
derivation and as the member of the selector set. -/
theorem c6_filter_application {K T V : Type} [DecidableEq K]
    (md : EntityMetadata K T V)
    (f : List (Option T) → String → List (Option T))
    (hf : md.filterFn = some f) (c : EntityCollection K T V) :
    selectFilteredEntities md c = f (selectEntities c) (selectFilter c) ∧
    selectFilteredEntitiesSel md c =
      .entityList (f (selectEntities c) (selectFilter c)) := by
  constructor <;> simp [selectFilteredEntities, selectFilteredEntitiesSel, hf]

/-- Witness for C6: entities `[{id:1,name:"a"},{id:2,name:"b"}]` with filter
pattern `"a"` and the substring-on-name predicate yield `[{id:1,name:"a"}]`. -/
theorem c6_filter_application_witness :
    selectFilteredEntities
        (⟨some "Person", some nameFilter, none⟩ : EntityMetadata Nat Person Nat)
        (⟨[1, 2], [(1, ⟨1, "a"⟩), (2, ⟨2, "b"⟩)], "a", false, false, [], []⟩ :
          EntityCollection Nat Person Nat) =
      [some ⟨1, "a"⟩] := by
  rw [(c6_filter_application _ nameFilter rfl _).1]
  decide

/-- C7: without a configured filter predicate, the `selectFilteredEntities`
member is the very `selectEntities` member (no separate memoization layer),
so the two derivations agree on every collection. -/
theorem c7_filtered_pass_through {K T V : Type} [DecidableEq K]
    (md : EntityMetadata K T V) (hf : md.filterFn = none) :
    selectFilteredEntitiesSel md = (selectEntitiesSel : Sel K T V) ∧
    ∀ c, selectFilteredEntities md c = selectEntities c := by
  constructor
  · simp [selectFilteredEntitiesSel, hf]
  · intro c
    simp [selectFilteredEntities, hf]

/-- Witness for C7 at a concrete filterless configuration. -/
theorem c7_filtered_pass_through_witness :
    selectFilteredEntitiesSel
        (⟨some "Hero", none, none⟩ : EntityMetadata Nat Nat Nat) =
      (selectEntitiesSel : Sel Nat Nat Nat) ∧
    ∀ c, selectFilteredEntities
        (⟨some "Hero", none, none⟩ : EntityMetadata Nat Nat Nat) c =
      selectEntities c :=
  c7_filtered_pass_through _ rfl

/-- Counterexample for C8: declared fields `name` and `Name` both derive the
selector name `selectName`; the selector the set returns under that name
reads field `Name` (the later declaration wins), not field `name`, so the
claim fails for the declared field name `k = "name"`. -/
theorem c8_extra_field_selectors_counterexample :
    (jsGet
        (createCollectionSelectors
          (⟨some "Thing", none, some [("name", 1), ("Name", 2)]⟩ :
            EntityMetadata Nat Nat Nat))
        (extraSelName "name")).map
      (fun m => m ⟨[], [], "", false, false, [], [("name", 1), ("Name", 2)]⟩) =
      some (.extraVal 2) ∧
    EntityCollection.getField
        (⟨[], [], "", false, false, [], [("name", 1), ("Name", 2)]⟩ :
          EntityCollection Nat Nat Nat) "name" = .extraVal 1 ∧
    (JsValue.extraVal 2 : JsValue Nat Nat Nat) ≠ .extraVal 1 := by
  refine ⟨by decide, by decide, by decide⟩

/-- C8 (amended): for every declared additional field name `k` that is
nonempty and is the only declared field with its derived selector name, the
member set contains, under the name `"select"` + capitalized `k`, the
accessor reading field `k` of the collection. -/
theorem c8_extra_field_selectors {K T V : Type} [DecidableEq K]
    (md : EntityMetadata K T V) (k : String) (hk : k ∈ extraKeys md)
    (_hne : k ≠ "")
    (huniq : ∀ x ∈ extraKeys md, extraSelName x = extraSelName k → x = k) :
    jsGet (createCollectionSelectors md) (extraSelName k) =
      some (fun c => c.getField k) :=
  extraFold_found _ _ _ hk huniq

/-- Witness for C8: declared field `loadedAt` with default `0` yields a
`selectLoadedAt` derivation returning `0` on a freshly created collection. -/
theorem c8_extra_field_selectors_witness :
    (jsGet
        (createCollectionSelectors
          (⟨some "Hero", none, some [("loadedAt", 0)]⟩ :
            EntityMetadata Nat Nat Nat)) (extraSelName "loadedAt")).map
      (fun m => m ⟨[], [], "", false, false, [], [("loadedAt", 0)]⟩) =
      some (.extraVal 0) := by
  rw [c8_extra_field_selectors _ "loadedAt" (by decide) (by decide) (by decide)]
  rfl

/-- C10: the extra-field selectors are spread after the built-in members, so
a declared field whose derived name equals a built-in name silently replaces
that built-in member (the builder stays total, no error), while for every
configuration without such a collision all nine built-in members are present
unchanged. -/
theorem c10_extra_shadowing {K T V : Type} [DecidableEq K]
    (md : EntityMetadata K T V) :
    (∀ k, k ∈ extraKeys md → extraSelName k ∈ builtinNames →
      (∀ x ∈ extraKeys md, extraSelName x = extraSelName k → x = k) →
      jsGet (createCollectionSelectors md) (extraSelName k) =
        some (fun c => c.getField k)) ∧
    ((∀ x ∈ extraKeys md, extraSelName x ∉ builtinNames) →
      ∀ q ∈ builtinSelObj md,
        jsGet (createCollectionSelectors md) q.1 = some q.2) := by
  constructor
  · intro k hk _ huniq
    exact extraFold_found _ _ _ hk huniq
  · intro hnc q hq
    rw [createCollectionSelectors, extraFold_ne]
    · refine jsGet_of_mem_nodup ?_ (by rcases q with ⟨qk, qv⟩; exact hq)
      rw [builtinSelObj_keys]
      decide
    · intro x hx he
      apply hnc x hx
      rw [he]
      rw [← builtinSelObj_keys md]
      exact List.mem_map.mpr ⟨q, hq, rfl⟩

/-- Witness for C10: field `count` shadows the built-in `selectCount`
(returning the extra field, not the key count), and a collision-free
configuration keeps `selectCount` as the built-in member. -/
theorem c10_extra_shadowing_witness :
    jsGet (createCollectionSelectors
        (⟨some "Thing", none, some [("count", 5)]⟩ :
          EntityMetadata Nat Nat Nat)) (extraSelName "count") =
      some (fun c => c.getField "count") ∧
    jsGet (createCollectionSelectors
        (⟨some "Crew", none, some [("loadedAt", 3)]⟩ :
          EntityMetadata Nat Nat Nat)) "selectCount" = some selectCountSel :=
  ⟨(c10_extra_shadowing _).1 "count" (by decide) (by decide) (by decide),
   (c10_extra_shadowing _).2 (by decide) ("selectCount", selectCountSel)
     (List.mem_cons_self _ _)⟩

theorem create_member {K T V R : Type} [DecidableEq K]
    (creator : EntityCollectionCreator K T V) (md : EntityMetadata K T V)
    (k : String) (m : Sel K T V)
    (h : jsGet (createCollectionSelectors md) k = some m) :
    jsGet (create creator md : JsObj (ObjMember K T V R)) k =
      some (.sel fun s => m (createCollectionSelector creator md.entityName s)) := by
  have hmem : (k, m) ∈ createCollectionSelectors md := jsGet_mem h
  simp only [create]
  apply foldl_objSet_found
  · exact List.mem_map.mpr ⟨(k, m), hmem, rfl⟩
  · intro q hq hqk
    rcases List.mem_map.mp hq with ⟨⟨pk, pv⟩, hp, rfl⟩
    simp only at hqk
    subst hqk
    have hpv : pv = m := nodup_keys_lookup_eq (cs_nodup_keys md) hp hmem
    rw [hpv]

theorem create_entityName {K T V R : Type} [DecidableEq K]
    (creator : EntityCollectionCreator K T V) (md : EntityMetadata K T V) :
    jsGet (create creator md : JsObj (ObjMember K T V R)) "entityName" =
      some (.val (jsOfName md.entityName)) := by
  simp only [create]
  rw [foldl_objSet_ne]
  · rfl
  · intro q hq
    rcases List.mem_map.mp hq with ⟨p, hp, rfl⟩
    simp only
    have hkey : p.1 ∈ (createCollectionSelectors md).map Prod.fst :=
      List.mem_map.mpr ⟨p, hp, rfl⟩
    rcases extraFold_keys _ _ _ hkey with hb | ⟨x, _, hxe⟩
    · rw [builtinSelObj_keys] at hb
      intro he
      rw [he] at hb
      exact absurd hb (by decide)
    · rw [hxe]
      exact extraSelName_ne_entityName x

theorem create_selectCollection {K T V R : Type} [DecidableEq K]
    (creator : EntityCollectionCreator K T V) (md : EntityMetadata K T V)
    (hcol : ∀ x ∈ extraKeys md, extraSelName x ≠ "selectCollection") :
    jsGet (create creator md : JsObj (ObjMember K T V R)) "selectCollection" =
      some (.sel fun s =>
        .coll (createCollectionSelector creator md.entityName s)) := by
  simp only [create]
  rw [foldl_objSet_ne]
  · rfl
  · intro q hq
    rcases List.mem_map.mp hq with ⟨p, hp, rfl⟩
    simp only
    have hkey : p.1 ∈ (createCollectionSelectors md).map Prod.fst :=
      List.mem_map.mpr ⟨p, hp, rfl⟩
    rcases extraFold_keys _ _ _ hkey with hb | ⟨x, hx, hxe⟩
    · rw [builtinSelObj_keys] at hb
      intro he
      rw [he] at hb
      exact absurd hb (by decide)
    · rw [hxe]
      exact hcol x hx

theorem create_entries {K T V R : Type} [DecidableEq K]
    (creator : EntityCollectionCreator K T V) (md : EntityMetadata K T V)
    (k : String) (e : ObjMember K T V R)
    (h : jsGet (create creator md : JsObj (ObjMember K T V R)) k = some e) :
    e = .val (jsOfName md.entityName) ∨
      ∃ m : Sel K T V,
        e = .sel fun s => m (createCollectionSelector creator md.entityName s) := by
  simp only [create] at h
  rcases foldl_objSet_entries _ _ _ _ h with h1 | h1
  · rcases List.mem_map.mp h1 with ⟨p, _, hpe⟩
    right
    exact ⟨p.2, (congrArg Prod.snd hpe).symm⟩
  · rw [jsGet] at h1
    by_cases h2 : k = "entityName"
    · rw [if_pos (by rw [h2])] at h1
      cases h1
      exact Or.inl rfl
    · rw [if_neg (by intro hb; exact h2 hb.symm), jsGet] at h1
      by_cases h3 : k = "selectCollection"
      · rw [if_pos (by rw [h3])] at h1
        cases h1
        exact Or.inr ⟨fun c => .coll c, rfl⟩
      · rw [if_neg (by intro hb; exact h3 hb.symm)] at h1
        simp [jsGet] at h1

/-- Counterexample for C4: with a declared extra field `collection`, the
derived member name `selectCollection` is spread after the base literal and
shadows the collection selector: the root derivation under
`selectCollection` returns the extra field's value, not the collection. -/
theorem c4_root_derivations_counterexample :
    (jsGet (create natCreator
          (⟨some "Thing", none, some [("collection", 7)]⟩ :
            EntityMetadata Nat Nat Nat) : JsObj (ObjMember Nat Nat Nat Nat))
        "selectCollection").map
      (fun e => applyMember e
        ⟨some [("Thing", ⟨[1], [(1, 9)], "", false, false, [],
          [("collection", 42)]⟩)], 0⟩) =
      some (.extraVal 42) ∧
    (JsValue.extraVal 42 : JsValue Nat Nat Nat) ≠
      .coll (createCollectionSelector natCreator (some "Thing")
        ⟨some [("Thing", ⟨[1], [(1, 9)], "", false, false, [],
          [("collection", 42)]⟩)], 0⟩) := by
  refine ⟨by decide, by decide⟩

/-- C4 (amended): provided no declared extra field derives the member name
`selectCollection`, the root set built by `create` contains, for each member
`(k, m)` of the member set, a root derivation under `k` equal to `m` composed
with the collection accessor; it contains a `selectCollection` derivation
returning the EntityCollection itself; and its `entityName` field equals the
configured type name. -/
theorem c4_root_derivations {K T V R : Type} [DecidableEq K]
    (creator : EntityCollectionCreator K T V) (md : EntityMetadata K T V)
    (n : String) (hn : md.entityName = some n)
    (hcol : ∀ x ∈ extraKeys md, extraSelName x ≠ "selectCollection") :
    (∀ k m, jsGet (createCollectionSelectors md) k = some m →
      jsGet (create creator md : JsObj (ObjMember K T V R)) k =
        some (.sel fun s =>
          m (createCollectionSelector creator md.entityName s))) ∧
    jsGet (create creator md : JsObj (ObjMember K T V R)) "selectCollection" =
      some (.sel fun s =>
        .coll (createCollectionSelector creator md.entityName s)) ∧
    jsGet (create creator md : JsObj (ObjMember K T V R)) "entityName" =
      some (.val (.str n)) := by
  refine ⟨fun k m h => create_member creator md k m h,
    create_selectCollection creator md hcol, ?_⟩
  rw [create_entityName, hn]
  rfl

/-- Witness for C4 at a concrete collision-free configuration. -/
theorem c4_root_derivations_witness :
    (∀ k m, jsGet (createCollectionSelectors
          (⟨some "Crew", none, some [("loadedAt", 3)]⟩ :
            EntityMetadata Nat Nat Nat)) k = some m →
      jsGet (create natCreator
          (⟨some "Crew", none, some [("loadedAt", 3)]⟩ :
            EntityMetadata Nat Nat Nat) : JsObj (ObjMember Nat Nat Nat Nat)) k =
        some (.sel fun s =>
          m (createCollectionSelector natCreator (some "Crew") s))) ∧
    jsGet (create natCreator
        (⟨some "Crew", none, some [("loadedAt", 3)]⟩ :
          EntityMetadata Nat Nat Nat) : JsObj (ObjMember Nat Nat Nat Nat))
        "selectCollection" =
      some (.sel fun s =>
        .coll (createCollectionSelector natCreator (some "Crew") s)) ∧
    jsGet (create natCreator
        (⟨some "Crew", none, some [("loadedAt", 3)]⟩ :
          EntityMetadata Nat Nat Nat) : JsObj (ObjMember Nat Nat Nat Nat))
        "entityName" = some (.val (.str "Crew")) :=
  c4_root_derivations natCreator _ "Crew" rfl (by decide)

/-- Counterexample for C9: building with a configuration whose `entityName`
is missing does not fail at build time: `create` returns a selector set whose
`entityName` field is `undefined` and whose members (e.g. `selectCount`)
evaluate normally. -/
theorem c9_missing_name_counterexample :
    (jsGet (create natCreator (⟨none, none, none⟩ : EntityMetadata Nat Nat Nat) :
        JsObj (ObjMember Nat Nat Nat Nat)) "entityName").map
      (fun e => applyMember e ⟨some [], 0⟩) = some .undefined ∧
    (jsGet (create natCreator (⟨none, none, none⟩ : EntityMetadata Nat Nat Nat) :
        JsObj (ObjMember Nat Nat Nat Nat)) "selectCount").map
      (fun e => applyMember e ⟨some [], 0⟩) = some (.num 0) := by
  refine ⟨by decide, by decide⟩

/-- C9 (amended): a missing `entityName` raises no build-time error: `create`
returns a complete selector set whose `entityName` field is `undefined`, with
every member composed with the accessor for the undefined name; detecting the
misconfiguration is left to callers. -/
theorem c9_missing_name_no_build_error {K T V R : Type} [DecidableEq K]
    (creator : EntityCollectionCreator K T V) (md : EntityMetadata K T V)
    (h : md.entityName = none) :
    jsGet (create creator md : JsObj (ObjMember K T V R)) "entityName" =
      some (.val .undefined) ∧
    ∀ k m, jsGet (createCollectionSelectors md) k = some m →
      jsGet (create creator md : JsObj (ObjMember K T V R)) k =
        some (.sel fun s =>
          m (createCollectionSelector creator md.entityName s)) := by
  refine ⟨?_, fun k m hm => create_member creator md k m hm⟩
  rw [create_entityName, h]
  rfl

theorem composed_stable {σ α β : Type} [DecidableEq σ] [DecidableEq α]
    (g : σ → α) (p : α → β) (s1 s2 : σ) (hg : g s1 = g s2) (mp : Memo1 α β) :
    (composedCall g p ((composedCall g p (⟨none⟩, mp) s1).2.1) s2).1 =
      (composedCall g p (⟨none⟩, mp) s1).1 ∧
    (composedCall g p ((composedCall g p (⟨none⟩, mp) s1).2.1) s2).2.2 =
      false := by
  rcases mp with ⟨_ | ⟨a0, b0⟩⟩
  · by_cases hs : s2 = s1 <;>
      simp [composedCall, Memo1.call, hs, ← hg]
  · by_cases ha : g s1 = a0 <;> by_cases hs : s2 = s1 <;>
      simp [composedCall, Memo1.call, hs, ha, ← hg]

/-- Witness for C9's amended statement at the empty configuration. -/
theorem c9_missing_name_no_build_error_witness :
    jsGet (create natCreator (⟨none, none, none⟩ : EntityMetadata Nat Nat Nat) :
        JsObj (ObjMember Nat Nat Nat Nat)) "entityName" =
      some (.val .undefined) ∧
    ∀ k m, jsGet (createCollectionSelectors
          (⟨none, none, none⟩ : EntityMetadata Nat Nat Nat)) k = some m →
      jsGet (create natCreator (⟨none, none, none⟩ : EntityMetadata Nat Nat Nat) :
          JsObj (ObjMember Nat Nat Nat Nat)) k =
        some (.sel fun s =>
          m (createCollectionSelector natCreator none s)) :=
  c9_missing_name_no_build_error natCreator _ rfl

/-- C5: when two global states carry the identical stored collection for type
X, every member of X's root selector set yields the same output on both
states; the memoized composed root derivation called on the first and then
the second state returns the cached output without re-running its projector;
and replacing the collection stored under a different type name leaves every
member's output unchanged. -/
theorem c5_isolation_across_types {K T V R : Type} [DecidableEq K]
    [DecidableEq T] [DecidableEq V] [DecidableEq R]
    (creator : EntityCollectionCreator K T V) (md : EntityMetadata K T V)
    (X : String) (hX : md.entityName = some X)
    (s1 s2 : GlobalState K T V R) (c : EntityCollection K T V)
    (h1 : jsGet (s1.cache.getD []) X = some c)
    (h2 : jsGet (s2.cache.getD []) X = some c) :
    (∀ k e, jsGet (create creator md : JsObj (ObjMember K T V R)) k = some e →
      applyMember e s1 = applyMember e s2) ∧
    (∀ (p : EntityCollection K T V → JsValue K T V)
        (mp : Memo1 (EntityCollection K T V) (JsValue K T V)),
      (composedCall (createCollectionSelector creator md.entityName) p
          ((composedCall (createCollectionSelector creator md.entityName) p
            (⟨none⟩, mp) s1).2.1) s2).1 =
        (composedCall (createCollectionSelector creator md.entityName) p
          (⟨none⟩, mp) s1).1 ∧
      (composedCall (createCollectionSelector creator md.entityName) p
          ((composedCall (createCollectionSelector creator md.entityName) p
            (⟨none⟩, mp) s1).2.1) s2).2.2 = false) ∧
    ∀ (Y : String) (d : EntityCollection K T V), Y ≠ X →
      ∀ k e, jsGet (create creator md : JsObj (ObjMember K T V R)) k = some e →
        applyMember e s1 =
          applyMember e ⟨some (objSet (s1.cache.getD []) Y d), s1.rest⟩ := by
  have hmain : ∀ t : GlobalState K T V R, jsGet (t.cache.getD []) X = some c →
      createCollectionSelector creator md.entityName s1 =
        createCollectionSelector creator md.entityName t := by
    intro t ht
    rw [hX]
    unfold createCollectionSelector getCollection
    simp [jsKeyOf, h1, ht]
  have happ : ∀ t : GlobalState K T V R, jsGet (t.cache.getD []) X = some c →
      ∀ k e, jsGet (create creator md : JsObj (ObjMember K T V R)) k = some e →
        applyMember e s1 = applyMember e t := by
    intro t ht k e he
    rcases create_entries creator md k e he with hv | ⟨m, rfl⟩
    · rw [hv]
      rfl
    · show m (createCollectionSelector creator md.entityName s1) =
        m (createCollectionSelector creator md.entityName t)
      rw [hmain t ht]
  refine ⟨happ s2 h2, ?_, ?_⟩
  · intro p mp
    exact composed_stable _ p s1 s2 (hmain s2 h2) mp
  · intro Y d hY k e he
    refine happ _ ?_ k e he
    show jsGet (objSet (s1.cache.getD []) Y d) X = some c
    rw [jsGet_objSet_ne _ _ (fun hxy => hY hxy.symm)]
    exact h1

/-- Witness for C5: type `Bar`'s stored collection is the identical object in
two states that differ in type `Foo`'s collection and in non-cache state. -/
theorem c5_isolation_across_types_witness :
    (∀ k e, jsGet (create natCreator
          (⟨some "Bar", none, none⟩ : EntityMetadata Nat Nat Nat) :
          JsObj (ObjMember Nat Nat Nat Nat)) k = some e →
      applyMember e
          ⟨some [("Bar", ⟨[1], [(1, 7)], "", true, false, [], []⟩),
            ("Foo", ⟨[2], [(2, 8)], "", false, false, [], []⟩)], 0⟩ =
        applyMember e
          ⟨some [("Foo", ⟨[9], [(9, 9)], "x", false, true, [], []⟩),
            ("Bar", ⟨[1], [(1, 7)], "", true, false, [], []⟩)], 5⟩) ∧
    (∀ (p : EntityCollection Nat Nat Nat → JsValue Nat Nat Nat)
        (mp : Memo1 (EntityCollection Nat Nat Nat) (JsValue Nat Nat Nat)),
      (composedCall (createCollectionSelector natCreator (some "Bar")) p
          ((composedCall (createCollectionSelector natCreator (some "Bar")) p
            (⟨none⟩, mp)
            ⟨some [("Bar", ⟨[1], [(1, 7)], "", true, false, [], []⟩),
              ("Foo", ⟨[2], [(2, 8)], "", false, false, [], []⟩)], 0⟩).2.1)
          ⟨some [("Foo", ⟨[9], [(9, 9)], "x", false, true, [], []⟩),
            ("Bar", ⟨[1], [(1, 7)], "", true, false, [], []⟩)], 5⟩).1 =
        (composedCall (createCollectionSelector natCreator (some "Bar")) p
          (⟨none⟩, mp)
          ⟨some [("Bar", ⟨[1], [(1, 7)], "", true, false, [], []⟩),
            ("Foo", ⟨[2], [(2, 8)], "", false, false, [], []⟩)], 0⟩).1 ∧
      (composedCall (createCollectionSelector natCreator (some "Bar")) p
          ((composedCall (createCollectionSelector natCreator (some "Bar")) p
            (⟨none⟩, mp)
            ⟨some [("Bar", ⟨[1], [(1, 7)], "", true, false, [], []⟩),
              ("Foo", ⟨[2], [(2, 8)], "", false, false, [], []⟩)], 0⟩).2.1)
          ⟨some [("Foo", ⟨[9], [(9, 9)], "x", false, true, [], []⟩),
            ("Bar", ⟨[1], [(1, 7)], "", true, false, [], []⟩)], 5⟩).2.2 =
        false) ∧
    ∀ (Y : String) (d : EntityCollection Nat Nat Nat), Y ≠ "Bar" →
      ∀ k e, jsGet (create natCreator
            (⟨some "Bar", none, none⟩ : EntityMetadata Nat Nat Nat) :
            JsObj (ObjMember Nat Nat Nat Nat)) k = some e →
        applyMember e
            ⟨some [("Bar", ⟨[1], [(1, 7)], "", true, false, [], []⟩),
              ("Foo", ⟨[2], [(2, 8)], "", false, false, [], []⟩)], 0⟩ =
          applyMember e
            ⟨some (objSet
              [("Bar", ⟨[1], [(1, 7)], "", true, false, [], []⟩),
                ("Foo", ⟨[2], [(2, 8)], "", false, false, [], []⟩)] Y d), 0⟩ :=
  c5_isolation_across_types natCreator
    (⟨some "Bar", none, none⟩ : EntityMetadata Nat Nat Nat) "Bar" rfl
    ⟨some [("Bar", ⟨[1], [(1, 7)], "", true, false, [], []⟩),
      ("Foo", ⟨[2], [(2, 8)], "", false, false, [], []⟩)], 0⟩
    ⟨some [("Foo", ⟨[9], [(9, 9)], "x", false, true, [], []⟩),
      ("Bar", ⟨[1], [(1, 7)], "", true, false, [], []⟩)], 5⟩
    ⟨[1], [(1, 7)], "", true, false, [], []⟩ (by decide) (by decide)

end NgrxData
